import Mathlib

set_option autoImplicit false

/-
Verification of the peak-set reconciliation engine (CombinePeaksWorkspaces).

The repository sources contain the engine's test suite
(Framework/Crystal/test/CombinePeaksWorkspacesTest.h) but not the engine
itself, so the data model and the operations below are modelled from the
specification (spec.md §3, §4, §6), with the test's observable behaviour as
the authority where the two disagree.
-/

namespace CombinePeaks

/-- Modelled from the spec: `PeakRecord` (§3) — an immutable value entity
describing one detected reflection: a Q-lab-frame vector (three reciprocal
space components), a strictly positive wavelength, a detector identifier and
a run identifier.  Real-valued quantities are embedded as rationals. -/
structure PeakRecord where
  qx : ℚ
  qy : ℚ
  qz : ℚ
  wavelength : ℚ
  detectorID : ℤ
  runNumber : ℤ
  deriving DecidableEq, Repr

/-- Modelled from the spec: `PeakCollection` (§3) — an ordered sequence of
`PeakRecord` together with a single shared instrument reference (embedded as
an opaque numeric identifier). -/
structure PeakCollection where
  instrument : ℕ
  peaks : List PeakRecord
  deriving DecidableEq, Repr

/-- Modelled from the spec: the single error kind of the engine (§7) —
a `ParameterError`, raised only for a non-positive tolerance. -/
inductive ParameterError where
  | toleranceNonPositive
  deriving DecidableEq, Repr

/-- Absolute value on `ℚ`, written out so that concrete instances evaluate
by kernel reduction; equal to Mathlib's `|·|` (see `ratAbs_eq_abs`). -/
def ratAbs (x : ℚ) : ℚ :=
  if x < 0 then -x else x

/-- Binary maximum on `ℚ`, written out so that concrete instances evaluate
by kernel reduction; equal to Mathlib's `max` (see `ratMax_eq_max`). -/
def ratMax (x y : ℚ) : ℚ :=
  if x ≤ y then y else x

/-- Modelled from the spec: the per-axis test of `ToleranceMatcher` (§4.3).
The spec leaves the exact magnitude-dependent normalization open; this
development pins the rule "discrepancy at most tolerance times the larger of
the two axis magnitudes", which realizes the spec's per-axis, conjunctive
pass/fail structure. -/
def axisWithin (x y tol : ℚ) : Bool :=
  decide (ratAbs (x - y) ≤ tol * ratMax (ratAbs x) (ratAbs y))

/-- Modelled from the spec: `ToleranceMatcher.peakMatches` (§4.3) — two peaks
match only if every one of the three reciprocal-space axes is within
tolerance; wavelength and detector identity are not compared. -/
def peakMatches (a b : PeakRecord) (tol : ℚ) : Bool :=
  axisWithin a.qx b.qx tol && axisWithin a.qy b.qy tol && axisWithin a.qz b.qz tol

/-- Modelled from the spec: the Mode B pass of `PeakSetCombiner` (§4.2).
The output is seeded with every `lhs` peak in order; each `rhs` peak, in
original order, is tested against the peaks currently in the output and is
dropped on a match, appended otherwise. -/
def combineMatched (tol : ℚ) : List PeakRecord → List PeakRecord → List PeakRecord
  | out, [] => out
  | out, p :: rest =>
    if out.any (fun q => peakMatches q p tol) then combineMatched tol out rest
    else combineMatched tol (out ++ [p]) rest

/-- Modelled from the spec: the surviving `rhs` peaks of a Mode B pass —
those that match no peak of the output current at their turn.  Used to state
the shape of `combineMatched`. -/
def keptPeaks (tol : ℚ) : List PeakRecord → List PeakRecord → List PeakRecord
  | _, [] => []
  | out, p :: rest =>
    if out.any (fun q => peakMatches q p tol) then keptPeaks tol out rest
    else p :: keptPeaks tol (out ++ [p]) rest

/-- Modelled from the spec: `PeakSetCombiner.combine` (§4.2) guarded by the
`ValidationGate` (§4.1): a non-positive tolerance fails with a
`ParameterError` before any combining work, in both modes; Mode A
(`combineMatching = false`) concatenates, Mode B filters `rhs` through the
tolerance match.  The output's instrument is always the left-hand input's. -/
def combine (lhs rhs : PeakCollection) (combineMatching : Bool) (tol : ℚ) :
    Except ParameterError PeakCollection :=
  if tol ≤ 0 then .error .toleranceNonPositive
  else if combineMatching then
    .ok ⟨lhs.instrument, combineMatched tol lhs.peaks rhs.peaks⟩
  else
    .ok ⟨lhs.instrument, lhs.peaks ++ rhs.peaks⟩

/-- Modelled from the spec: the invocation parameters of the surrounding
algorithm (§6) — `CombineMatchingPeaks` (default `false`) and `Tolerance`.
The tests execute the algorithm without supplying `Tolerance` and succeed,
so the parameter is held as an `Option`, resolved by a default at execution
time. -/
structure AlgState where
  combineMatchingPeaks : Bool
  tolerance : Option ℚ
  deriving DecidableEq, Repr

/-- Modelled from the spec: the freshly initialized parameter state —
`CombineMatchingPeaks` defaults to `false` (§6), `Tolerance` unset. -/
def initState : AlgState :=
  ⟨false, none⟩

/-- Modelled from the spec: the default used when `Tolerance` was never
assigned.  Its exact value is not recoverable from the sources; the tests
only show that execution without an explicit tolerance succeeds and that the
default collapses exactly coincident peaks, which any positive value of the
pinned matcher reproduces. -/
def defaultTolerance : ℚ :=
  1

/-- Modelled from the spec: assigning `Tolerance` (§6) — a non-positive
value fails immediately with a `ParameterError`, at parameter-assignment
time, whatever the rest of the state holds. -/
def setTolerance (t : ℚ) (s : AlgState) : Except ParameterError AlgState :=
  if t ≤ 0 then .error .toleranceNonPositive
  else .ok { s with tolerance := some t }

/-- Modelled from the spec: assigning `CombineMatchingPeaks` (§6); the
boolean is unvalidated. -/
def setCombineMatchingPeaks (b : Bool) (s : AlgState) : AlgState :=
  { s with combineMatchingPeaks := b }

/-- Modelled from the spec: executing the algorithm (§6) — the core
`combine` applied at the assigned parameters, the unset tolerance resolved
by the default. -/
def execute (s : AlgState) (lhs rhs : PeakCollection) :
    Except ParameterError PeakCollection :=
  combine lhs rhs s.combineMatchingPeaks (s.tolerance.getD defaultTolerance)

/-- Concrete peak with Q = (1, 0, 0), used in witnesses. -/
def pkA : PeakRecord :=
  ⟨1, 0, 0, 2, 10, 1⟩

/-- Concrete peak with Q = (-1, 0, 0): at tolerance 1 its x-axis discrepancy
with `pkA` (2) exceeds the larger magnitude (1), so it does not match `pkA`. -/
def pkB : PeakRecord :=
  ⟨-1, 0, 0, 3, 11, 1⟩

/-- Concrete peak with Q = (-2, 0, 0): at tolerance 1 it matches `pkB`
(discrepancy 1 within the larger magnitude 2) but not `pkA` (discrepancy 3
beyond the larger magnitude 2). -/
def pkC : PeakRecord :=
  ⟨-2, 0, 0, 5, 12, 1⟩

/-- Concrete peak with Q = (1, 0, 5), within tolerance 1 of `pkZ2` on the
y- and z-axes but not on the x-axis. -/
def pkZ1 : PeakRecord :=
  ⟨1, 0, 5, 2, 50, 1⟩

/-- Concrete peak with Q = (-1, 0, 5); see `pkZ1`. -/
def pkZ2 : PeakRecord :=
  ⟨-1, 0, 5, 2, 51, 1⟩

/-- A concrete left-hand collection for witnesses. -/
def lhsSample : PeakCollection :=
  ⟨7, [pkA, pkZ1]⟩

/-- A concrete right-hand collection for witnesses, with a different
instrument than `lhsSample`. -/
def rhsSample : PeakCollection :=
  ⟨9, [pkB]⟩

/-- `ratAbs` agrees with Mathlib's absolute value. -/
theorem ratAbs_eq_abs (x : ℚ) : ratAbs x = |x| := by
  rcases lt_or_le x 0 with h | h
  · simp [ratAbs, h, abs_of_neg h]
  · simp [ratAbs, not_lt.mpr h, abs_of_nonneg h]

/-- `ratMax` agrees with Mathlib's `max`. -/
theorem ratMax_eq_max (x y : ℚ) : ratMax x y = max x y := by
  simp [ratMax, max_def]

/-- The per-axis test is reflexive for a non-negative tolerance. -/
theorem axisWithin_self (x tol : ℚ) (h : 0 ≤ tol) : axisWithin x x tol = true := by
  simp only [axisWithin, ratAbs_eq_abs, ratMax_eq_max, sub_self, abs_zero, max_self,
    decide_eq_true_eq]
  exact mul_nonneg h (abs_nonneg x)

/-- The matcher is reflexive for a non-negative tolerance. -/
theorem peakMatches_self (p : PeakRecord) (tol : ℚ) (h : 0 ≤ tol) :
    peakMatches p p tol = true := by
  simp [peakMatches, axisWithin_self _ _ h]

/-- The Mode B pass returns the running output followed by the surviving
`rhs` peaks. -/
theorem combineMatched_eq_append (tol : ℚ) (rhs : List PeakRecord) :
    ∀ out : List PeakRecord,
      combineMatched tol out rhs = out ++ keptPeaks tol out rhs := by
  induction rhs with
  | nil => intro out; simp [combineMatched, keptPeaks]
  | cons p rest ih =>
    intro out
    cases hc : out.any (fun q => peakMatches q p tol) with
    | true => simp [combineMatched, keptPeaks, hc, ih out]
    | false => simpa [combineMatched, keptPeaks, hc] using ih (out ++ [p])

/-- The surviving `rhs` peaks form a sublist of `rhs`: each survivor appears
once, in its original relative order, and nothing else is produced. -/
theorem keptPeaks_sublist (tol : ℚ) (rhs : List PeakRecord) :
    ∀ out : List PeakRecord, (keptPeaks tol out rhs).Sublist rhs := by
  induction rhs with
  | nil => intro out; simp [keptPeaks]
  | cons p rest ih =>
    intro out
    cases hc : out.any (fun q => peakMatches q p tol) with
    | true =>
      simp only [keptPeaks, hc, if_true]
      exact (ih out).cons p
    | false =>
      simp only [keptPeaks, hc, if_false]
      exact (ih (out ++ [p])).cons₂ p

/-- A Mode B pass over peaks already present in the running output leaves
the output unchanged. -/
theorem combineMatched_of_subset (tol : ℚ) (h : 0 ≤ tol) (rhs : List PeakRecord) :
    ∀ out : List PeakRecord, (∀ p ∈ rhs, p ∈ out) →
      combineMatched tol out rhs = out := by
  induction rhs with
  | nil => intro out _; simp [combineMatched]
  | cons p rest ih =>
    intro out hsub
    have hp : p ∈ out := hsub p (List.mem_cons_self p rest)
    have hany : out.any (fun q => peakMatches q p tol) = true :=
      List.any_eq_true.mpr ⟨p, hp, peakMatches_self p tol h⟩
    simp [combineMatched, hany, ih out fun q hq => hsub q (List.mem_cons_of_mem p hq)]


/-- C2: Concatenation law (Mode A) — with `CombineMatchingPeaks = false`,
`combine` returns the `lhs` peaks in order followed by the `rhs` peaks in
order (size `|lhs| + |rhs|`), the tolerance playing no role in the content. -/
theorem combine_keepAll_concatenates (lhs rhs : PeakCollection) (tol : ℚ)
    (h : 0 < tol) :
    combine lhs rhs false tol = .ok ⟨lhs.instrument, lhs.peaks ++ rhs.peaks⟩ ∧
    (lhs.peaks ++ rhs.peaks).length = lhs.peaks.length + rhs.peaks.length ∧
    (lhs.peaks ++ rhs.peaks).take lhs.peaks.length = lhs.peaks ∧
    (lhs.peaks ++ rhs.peaks).drop lhs.peaks.length = rhs.peaks := by
  refine ⟨by simp [combine, h.not_le], by simp, by simp, by simp⟩

/-- Witness for C2 at concrete collections and tolerance 1. -/
theorem combine_keepAll_concatenates_w :
    combine lhsSample rhsSample false 1 =
      .ok ⟨lhsSample.instrument, lhsSample.peaks ++ rhsSample.peaks⟩ ∧
    lhsSample.peaks ++ rhsSample.peaks = [pkA, pkZ1, pkB] :=
  ⟨(combine_keepAll_concatenates lhsSample rhsSample 1 (by norm_num)).1,
    by simp [lhsSample, rhsSample]⟩

/-- C3: Mode B output shape — with `CombineMatchingPeaks = true`, the output
is the `lhs` peaks in order followed by exactly the unmatched `rhs` peaks
(`keptPeaks`), which form a sublist of `rhs` (relative order preserved, no
duplication), and the size is `|lhs|` plus the number of unmatched `rhs`
peaks; matched `rhs` peaks are dropped, never overwritten onto the output. -/
theorem combine_matching_shape (lhs rhs : PeakCollection) (tol : ℚ)
    (h : 0 < tol) :
    combine lhs rhs true tol =
      .ok ⟨lhs.instrument, lhs.peaks ++ keptPeaks tol lhs.peaks rhs.peaks⟩ ∧
    (keptPeaks tol lhs.peaks rhs.peaks).Sublist rhs.peaks ∧
    (lhs.peaks ++ keptPeaks tol lhs.peaks rhs.peaks).take lhs.peaks.length =
      lhs.peaks ∧
    (lhs.peaks ++ keptPeaks tol lhs.peaks rhs.peaks).length =
      lhs.peaks.length + (keptPeaks tol lhs.peaks rhs.peaks).length := by
  refine ⟨?_, keptPeaks_sublist tol rhs.peaks lhs.peaks, by simp, by simp⟩
  simp [combine, h.not_le, combineMatched_eq_append]

/-- Witness for C3 at concrete collections: `pkB` survives (no match against
`pkA`), `pkC` is absorbed (it matches the previously accepted `pkB`). -/
theorem combine_matching_shape_w :
    combine ⟨0, [pkA]⟩ ⟨1, [pkB, pkC]⟩ true 1 =
      .ok ⟨0, [pkA] ++ keptPeaks 1 [pkA] [pkB, pkC]⟩ ∧
    keptPeaks 1 [pkA] [pkB, pkC] = [pkB] :=
  ⟨(combine_matching_shape ⟨0, [pkA]⟩ ⟨1, [pkB, pkC]⟩ 1 (by norm_num)).1,
    by norm_num [keptPeaks, peakMatches, axisWithin, ratAbs, ratMax, pkA, pkB, pkC]⟩

/-- C4: Per-axis conjunctive matching — two peaks match exactly when every
one of the three axes is within tolerance; failing on one axis (here the
x-axis, while y and z are within) makes the pair a non-match, and both peaks
survive as distinct output entries. -/
theorem peakMatches_conjunctive_per_axis :
    (∀ (a b : PeakRecord) (tol : ℚ), peakMatches a b tol = true ↔
      (axisWithin a.qx b.qx tol = true ∧ axisWithin a.qy b.qy tol = true ∧
        axisWithin a.qz b.qz tol = true)) ∧
    (∀ (a b : PeakRecord) (tol : ℚ),
      axisWithin a.qx b.qx tol = false → peakMatches a b tol = false) ∧
    axisWithin pkZ1.qy pkZ2.qy 1 = true ∧
    axisWithin pkZ1.qz pkZ2.qz 1 = true ∧
    axisWithin pkZ1.qx pkZ2.qx 1 = false ∧
    peakMatches pkZ1 pkZ2 1 = false ∧
    combine ⟨3, [pkZ1]⟩ ⟨4, [pkZ2]⟩ true 1 = .ok ⟨3, [pkZ1, pkZ2]⟩ := by
  refine ⟨fun a b tol => by simp [peakMatches, and_assoc],
    fun a b tol hx => by simp [peakMatches, hx],
    ?_, ?_, ?_, ?_, ?_⟩
  · norm_num [axisWithin, ratAbs, ratMax, pkZ1, pkZ2]
  · norm_num [axisWithin, ratAbs, ratMax, pkZ1, pkZ2]
  · norm_num [axisWithin, ratAbs, ratMax, pkZ1, pkZ2]
  · norm_num [peakMatches, axisWithin, ratAbs, ratMax, pkZ1, pkZ2]
  · norm_num [combine, combineMatched, peakMatches, axisWithin, ratAbs, ratMax,
      pkZ1, pkZ2]

/-- Witness for C4: the conditional conjunct applied at the concrete pair
that is within tolerance on y and z but not on x. -/
theorem peakMatches_conjunctive_per_axis_w :
    peakMatches pkZ1 pkZ2 1 = false :=
  peakMatches_conjunctive_per_axis.2.1 pkZ1 pkZ2 1
    (by norm_num [axisWithin, ratAbs, ratMax, pkZ1, pkZ2])

/-- C5: Unconditional tolerance rejection — assigning a non-positive
tolerance fails with a `ParameterError` at assignment time whatever the
current parameter state holds (in particular whatever
`CombineMatchingPeaks` is), and the core `combine` likewise rejects it in
either mode before any combining work. -/
theorem tolerance_rejected_unconditionally (t : ℚ) (h : t ≤ 0) (s : AlgState)
    (lhs rhs : PeakCollection) (b : Bool) :
    setTolerance t s = .error .toleranceNonPositive ∧
    combine lhs rhs b t = .error .toleranceNonPositive :=
  ⟨by simp [setTolerance, h], by simp [combine, h]⟩

/-- Witness for C5 at tolerance `-1` with `CombineMatchingPeaks = false`. -/
theorem tolerance_rejected_unconditionally_w :
    setTolerance (-1) initState = .error .toleranceNonPositive ∧
    combine lhsSample rhsSample false (-1) = .error .toleranceNonPositive :=
  tolerance_rejected_unconditionally (-1) (by norm_num) initState lhsSample
    rhsSample false

/-- C6 counterexample: an invocation that never assigns `Tolerance` (the
freshly initialized state holds none) executes successfully — refuting the
claim that omitting `Tolerance` cannot succeed.  This mirrors the test
suite, whose `test_keep_all_peaks` and `test_match_peaks_identical_workspaces`
both execute without setting `Tolerance` and assert success. -/
theorem tolerance_omitted_executes :
    initState.tolerance = none ∧
    execute initState lhsSample rhsSample = .ok ⟨7, [pkA, pkZ1, pkB]⟩ :=
  ⟨rfl, by norm_num [execute, initState, defaultTolerance, combine, lhsSample,
    rhsSample]⟩

/-- C6 amended: `Tolerance` need not be supplied — execution with it unset
succeeds in either mode, using the default — but an explicitly assigned
value must be strictly positive: assigning a non-positive value fails with a
`ParameterError` whatever the rest of the state holds. -/
theorem tolerance_optional_but_positive (t : ℚ) (h : t ≤ 0) (s : AlgState)
    (lhs rhs : PeakCollection) (b : Bool) :
    setTolerance t s = .error .toleranceNonPositive ∧
    (execute ⟨b, none⟩ lhs rhs).isOk = true := by
  refine ⟨by simp [setTolerance, h], ?_⟩
  cases b <;> norm_num [execute, combine, defaultTolerance, Except.isOk, Except.toBool]

/-- Witness for C6's amended claim at tolerance `0`, matching mode on. -/
theorem tolerance_optional_but_positive_w :
    setTolerance 0 initState = .error .toleranceNonPositive ∧
    (execute ⟨true, none⟩ lhsSample rhsSample).isOk = true :=
  tolerance_optional_but_positive 0 (by norm_num) initState lhsSample rhsSample
    true

/-- C7: Full self-collapse — combining a collection with itself in matching
mode at any positive tolerance returns exactly the original peaks: the
output equals the input collection (same instrument, same peaks), so sizes
agree and every output peak's wavelength equals the corresponding original
peak's wavelength. -/
theorem combine_self_collapse (c : PeakCollection) (tol : ℚ) (h : 0 < tol) :
    combine c c true tol = .ok ⟨c.instrument, c.peaks⟩ ∧
    (combineMatched tol c.peaks c.peaks).length = c.peaks.length ∧
    (combineMatched tol c.peaks c.peaks).map PeakRecord.wavelength =
      c.peaks.map PeakRecord.wavelength := by
  have key : combineMatched tol c.peaks c.peaks = c.peaks :=
    combineMatched_of_subset tol h.le c.peaks c.peaks fun _ hp => hp
  exact ⟨by simp [combine, h.not_le, key], by rw [key], by rw [key]⟩

/-- Witness for C7: the sample collection collapses onto itself at
tolerance 1. -/
theorem combine_self_collapse_w :
    combine lhsSample lhsSample true 1 =
      .ok ⟨lhsSample.instrument, lhsSample.peaks⟩ :=
  (combine_self_collapse lhsSample 1 (by norm_num)).1

/-- C8: Instrument preservation — in both modes, whenever `combine`
succeeds, the output collection's instrument is the left-hand input's
instrument, whatever the right-hand input's instrument is. -/
theorem combine_instrument_from_lhs (lhs rhs : PeakCollection) (b : Bool)
    (tol : ℚ) (out : PeakCollection)
    (hout : combine lhs rhs b tol = .ok out) :
    out.instrument = lhs.instrument := by
  by_cases h : tol ≤ 0
  · simp [combine, h] at hout
  · cases b <;> simp [combine, h] at hout <;> simp [← hout]

/-- Witness for C8: matching-mode combine of the samples, whose instruments
differ (7 versus 9), keeps the left-hand instrument 7. -/
theorem combine_instrument_from_lhs_w :
    (⟨7, [pkA, pkZ1, pkB]⟩ : PeakCollection).instrument =
      lhsSample.instrument :=
  combine_instrument_from_lhs lhsSample rhsSample true 1 ⟨7, [pkA, pkZ1, pkB]⟩
    (by norm_num [combine, combineMatched, peakMatches, axisWithin, ratAbs,
      ratMax, lhsSample, rhsSample, pkA, pkZ1, pkB])

/-- C9: Growing-output matching — each `rhs` peak is tested against the
peaks currently in the output: if some current output peak matches it, it is
dropped; if none does, it is appended and the pass continues on the grown
output.  Concretely, `pkC` matches no `lhs` peak (`pkA`) but does match the
previously accepted `rhs` peak `pkB`, and is absorbed by it. -/
theorem matching_against_growing_output :
    (∀ (tol : ℚ) (out : List PeakRecord) (p : PeakRecord)
        (rest : List PeakRecord),
      ((∃ q ∈ out, peakMatches q p tol = true) →
        combineMatched tol out (p :: rest) = combineMatched tol out rest) ∧
      ((∀ q ∈ out, peakMatches q p tol = false) →
        combineMatched tol out (p :: rest) =
          combineMatched tol (out ++ [p]) rest)) ∧
    peakMatches pkA pkB 1 = false ∧
    peakMatches pkA pkC 1 = false ∧
    peakMatches pkB pkC 1 = true ∧
    combine ⟨0, [pkA]⟩ ⟨1, [pkB, pkC]⟩ true 1 = .ok ⟨0, [pkA, pkB]⟩ := by
  refine ⟨fun tol out p rest => ⟨fun hex => ?_, fun hall => ?_⟩, ?_, ?_, ?_, ?_⟩
  · obtain ⟨q, hq, hm⟩ := hex
    have hany : out.any (fun q => peakMatches q p tol) = true :=
      List.any_eq_true.mpr ⟨q, hq, hm⟩
    simp [combineMatched, hany]
  · have hany : out.any (fun q => peakMatches q p tol) = false := by
      rw [List.any_eq_false]
      intro q hq
      simp [hall q hq]
    simp [combineMatched, hany]
  · norm_num [peakMatches, axisWithin, ratAbs, ratMax, pkA, pkB]
  · norm_num [peakMatches, axisWithin, ratAbs, ratMax, pkA, pkC]
  · norm_num [peakMatches, axisWithin, ratAbs, ratMax, pkB, pkC]
  · norm_num [combine, combineMatched, peakMatches, axisWithin, ratAbs, ratMax,
      pkA, pkB, pkC]

/-- Witness for C9: dropping `pkC` because the previously accepted `pkB` in
the current output matches it. -/
theorem matching_against_growing_output_w :
    combineMatched 1 [pkA, pkB] [pkC] = combineMatched 1 [pkA, pkB] [] :=
  (matching_against_growing_output.1 1 [pkA, pkB] pkC []).1
    ⟨pkB, by simp, by norm_num [peakMatches, axisWithin, ratAbs, ratMax, pkB, pkC]⟩

end CombinePeaks
